import Mathlib

/-!
Verification of the agronomic decision engine (`backend/services/analysis.py`)
of the farm-monitor repository.  The engine's four sub-functions —
growth-stage estimation, crop-health classification, recommendation
composition and risk assessment — are embedded shallowly: Python floats
become rationals, dictionaries with optional keys become structures of
`Option` fields, and the `datetime.strptime`/`datetime.now()` interaction is
modelled by an explicit parse of `"%Y-%m-%d"` strings into calendar dates
together with an integer day number for "now".
-/

namespace FarmMonitor

/-! ## Data model -/

/-- The `analysis` sub-dictionary of the weather collaborator's output.
Every field may be absent (`weather_analysis.get(...)` in the source). -/
structure WeatherAnalysis where
  total_rainfall_30d : Option ℚ := none
  forecast_rain_7d : Option ℚ := none
  avg_temperature : Option ℚ := none
  drought_risk : Option Bool := none
  flood_risk : Option Bool := none
  temperature_stress : Option Bool := none
deriving DecidableEq

/-- The weather collaborator's output; `weather_data.get('analysis', {})`
means the whole analysis record may itself be absent. -/
structure WeatherData where
  analysis : Option WeatherAnalysis := none
deriving DecidableEq

/-- The satellite collaborator's output; `ndvi_mean` / `ndmi_mean` may be
absent (`satellite_data.get(...)` in the source). -/
structure SatelliteData where
  ndvi_mean : Option ℚ := none
  ndmi_mean : Option ℚ := none
deriving DecidableEq

/-- Python truthiness of an optional boolean field: an absent key reads as
`None`, which is falsy. -/
def flagSet (o : Option Bool) : Bool := o.getD false

/-- One row of `CROP_NDVI_THRESHOLDS`: the four descending NDVI cut points. -/
structure CropThresholds where
  excellent : ℚ
  good : ℚ
  moderate : ℚ
  poor : ℚ
deriving DecidableEq

/-- The `'other'` fallback row of `CROP_NDVI_THRESHOLDS`. -/
def otherThresholds : CropThresholds := ⟨0.7, 0.5, 0.3, 0.2⟩

/-- `AgronomicAnalyzer.CROP_NDVI_THRESHOLDS` (analysis.py lines 17-26). -/
def CROP_NDVI_THRESHOLDS : List (String × CropThresholds) :=
  [("wheat", ⟨0.7, 0.5, 0.3, 0.2⟩),
   ("corn", ⟨0.75, 0.55, 0.35, 0.25⟩),
   ("rice", ⟨0.8, 0.6, 0.4, 0.3⟩),
   ("soybean", ⟨0.7, 0.5, 0.3, 0.2⟩),
   ("cotton", ⟨0.65, 0.45, 0.3, 0.2⟩),
   ("vegetables", ⟨0.7, 0.5, 0.35, 0.25⟩),
   ("fruit", ⟨0.75, 0.55, 0.4, 0.3⟩),
   ("other", otherThresholds)]

/-! ## Calendar dates and `strptime("%Y-%m-%d")` -/

/-- A parsed calendar date. -/
structure Date where
  year : ℤ
  month : ℤ
  day : ℤ
deriving DecidableEq

def isLeapYear (y : ℤ) : Bool :=
  (y % 4 == 0 && y % 100 != 0) || y % 400 == 0

def daysInMonth (y m : ℤ) : ℤ :=
  if m = 2 then (if isLeapYear y then 29 else 28)
  else if m = 4 ∨ m = 6 ∨ m = 9 ∨ m = 11 then 30
  else 31

/-- Numeric value of a decimal digit character. -/
def digitVal (c : Char) : ℤ := (c.toNat : ℤ) - 48

/-- The `%m` field of CPython's strptime: `1[0-2]|0[1-9]|[1-9]`,
longest alternative first. Returns the month and the unconsumed input. -/
def parseMonthPart : List Char → Option (ℤ × List Char)
  | c1 :: c2 :: rest =>
    if c1 = '1' ∧ (c2 = '0' ∨ c2 = '1' ∨ c2 = '2') then some (10 + digitVal c2, rest)
    else if c1 = '0' ∧ c2.isDigit ∧ c2 ≠ '0' then some (digitVal c2, rest)
    else if c1.isDigit ∧ c1 ≠ '0' then some (digitVal c1, c2 :: rest)
    else none
  | [c1] => if c1.isDigit ∧ c1 ≠ '0' then some (digitVal c1, []) else none
  | [] => none

/-- The `%d` field of CPython's strptime: `3[01]|[12]\d|0[1-9]|[1-9]`. -/
def parseDayPart : List Char → Option (ℤ × List Char)
  | c1 :: c2 :: rest =>
    if c1 = '3' ∧ (c2 = '0' ∨ c2 = '1') then some (30 + digitVal c2, rest)
    else if (c1 = '1' ∨ c1 = '2') ∧ c2.isDigit then some (10 * digitVal c1 + digitVal c2, rest)
    else if c1 = '0' ∧ c2.isDigit ∧ c2 ≠ '0' then some (digitVal c2, rest)
    else if c1.isDigit ∧ c1 ≠ '0' then some (digitVal c1, c2 :: rest)
    else none
  | [c1] => if c1.isDigit ∧ c1 ≠ '0' then some (digitVal c1, []) else none
  | [] => none

/-- `datetime.strptime(s, "%Y-%m-%d")` on the character list of `s`:
four year digits, a literal dash, a month field, a dash, a day field, the
whole string consumed, followed by `datetime`'s own range validation
(year ≥ 1, day within the month).  A failure is the `ValueError` the
source catches. -/
def parseYMDChars : List Char → Option Date
  | y1 :: y2 :: y3 :: y4 :: '-' :: rest =>
    if y1.isDigit ∧ y2.isDigit ∧ y3.isDigit ∧ y4.isDigit then
      let y := 1000 * digitVal y1 + 100 * digitVal y2 + 10 * digitVal y3 + digitVal y4
      match parseMonthPart rest with
      | some (m, rest2) =>
        match rest2 with
        | '-' :: rest3 =>
          match parseDayPart rest3 with
          | some (d, []) =>
            if 1 ≤ y ∧ 1 ≤ d ∧ d ≤ daysInMonth y m then some ⟨y, m, d⟩ else none
          | _ => none
        | _ => none
      | none => none
    else none
  | _ => none

/-- `datetime.strptime(planting_date, "%Y-%m-%d")`. -/
def strptimeYMD (s : String) : Option Date := parseYMDChars s.data

/-- Day number of a calendar date (days since 1970-01-01, proleptic
Gregorian, the standard civil-from-date computation).  `(now - planted).days`
in the source is the difference of the two day numbers, since `planted` is
a midnight timestamp and the fractional part of the difference is floored
away. -/
def civilFromDate (dt : Date) : ℤ :=
  let y := if dt.month ≤ 2 then dt.year - 1 else dt.year
  let era := Int.fdiv y 400
  let yoe := y - era * 400
  let mp := (dt.month + 9) % 12
  let doy := (153 * mp + 2) / 5 + dt.day - 1
  let doe := yoe * 365 + yoe / 4 - yoe / 100 + doy
  era * 146097 + doe - 719468

/-! ## Growth-stage estimator (`_calculate_growth_stage`, lines 92-116) -/

/-- The day-count bucketing of `_calculate_growth_stage`. -/
def stageOfDays (days : ℤ) : String :=
  if days < 0 then "Not Planted"
  else if days < 30 then "Early Growth"
  else if days < 60 then "Vegetative"
  else if days < 90 then "Flowering"
  else if days < 120 then "Fruiting/Grain Fill"
  else "Maturity/Harvest"

/-- `_calculate_growth_stage(planting_date)`; `now` is the day number of
`datetime.now()`.  `if not planting_date` treats both `None` and the empty
string as missing; a strptime failure is swallowed into `"Unknown"`. -/
def calculate_growth_stage (planting_date : Option String) (now : ℤ) : String :=
  match planting_date with
  | none => "Unknown"
  | some s =>
    if s.isEmpty then "Unknown"
    else
      match strptimeYMD s with
      | none => "Unknown"
      | some planted => stageOfDays (now - civilFromDate planted)

/-- The try/except body of `_calculate_growth_stage` with the strptime
failure left as an exception (`Except.error`), before the handler turns it
into `"Unknown"`. -/
def growthStageAttempt (s : String) (now : ℤ) : Except String String :=
  match strptimeYMD s with
  | none => Except.error "ValueError"
  | some planted => Except.ok (stageOfDays (now - civilFromDate planted))

/-- `_calculate_growth_stage` with its exception handling made explicit:
the only failure path is the strptime `ValueError`, which is caught. -/
def calculate_growth_stageE (planting_date : Option String) (now : ℤ) :
    Except String String :=
  match planting_date with
  | none => Except.ok "Unknown"
  | some s =>
    if s.isEmpty then Except.ok "Unknown"
    else
      match growthStageAttempt s now with
      | Except.ok r => Except.ok r
      | Except.error _ => Except.ok "Unknown"

/-! ## Health classifier (`_assess_crop_health`, lines 118-136) -/

/-- Python's `str.lower()` (relevant inputs are ASCII crop-type strings). -/
def lowerString (s : String) : String := ⟨s.data.map Char.toLower⟩

/-- `_assess_crop_health(ndvi, crop_type, growth_stage)`.  The growth stage
is accepted but not read, exactly as in the source. -/
def assess_crop_health (ndvi : ℚ) (crop_type : String) (growth_stage : String) : String :=
  let thresholds := (CROP_NDVI_THRESHOLDS.lookup (lowerString crop_type)).getD otherThresholds
  if ndvi ≥ thresholds.excellent then "Excellent"
  else if ndvi ≥ thresholds.good then "Good"
  else if ndvi ≥ thresholds.moderate then "Moderate"
  else if ndvi ≥ thresholds.poor then "Poor"
  else "Critical"

/-- The five health categories, best first. -/
def healthCategories : List String :=
  ["Excellent", "Good", "Moderate", "Poor", "Critical"]

/-- Rank of a health category, `Critical` lowest. -/
def healthRank (h : String) : ℕ :=
  if h = "Critical" then 0
  else if h = "Poor" then 1
  else if h = "Moderate" then 2
  else if h = "Good" then 3
  else 4

/-! ## Recommendation composer (`_generate_recommendations`, lines 138-234)

Each advisory string is the source's literal (Python's adjacent string
literals concatenate).  The rule groups appear in source order; each group
contributes its advisory when its condition fires, independently of the
others. -/

def inspectFieldAdvisory : String :=
  "⚠️ Low vegetation health detected. Inspect field for: (1) Nutrient deficiencies - consider soil testing, (2) Pest or disease pressure, (3) Water stress."

def maintainAdvisory : String :=
  "✅ Crops showing excellent health. Maintain current practices."

def lowMoistureAdvisory : String :=
  "💧 Low moisture detected (NDMI < 0.2). Consider irrigation if water is available. Monitor crop water stress symptoms."

def highMoistureAdvisory : String :=
  "💧 High moisture levels detected. Ensure proper drainage to prevent waterlogging."

def droughtAdvisory : String :=
  "🌵 Drought risk: Less than 20mm rainfall in past 30 days. Implement water conservation: mulching, reduce tillage, consider irrigation."

def floodAdvisory : String :=
  "🌊 Heavy rainfall expected (>100mm in next 7 days). Prepare drainage systems, avoid field operations until soil dries."

def heatAdvisory : String :=
  "🌡️ High temperature stress (avg >35°C). Ensure adequate irrigation, monitor for heat stress symptoms."

def coldAdvisory : String :=
  "❄️ Low temperature detected (avg <10°C). Monitor for frost damage, delay sensitive operations."

def noRainAdvisory : String :=
  "☀️ No rainfall expected in next 7 days. Plan irrigation accordingly."

def heavyRainAdvisory : String :=
  "🌧️ Significant rainfall expected. Delay fertilizer/pesticide applications."

def floweringAdvisory : String :=
  "🌸 Critical flowering stage detected. Ensure optimal water and nutrients. Avoid stress during this period for maximum yield."

def fungalAdvisory : String :=
  "🍄 Conditions favorable for fungal diseases (high rain + moderate temp). Scout regularly, consider preventive fungicide if disease pressure is high."

def healthyDefaultAdvisory : String :=
  "✅ Crops appear healthy. Continue regular monitoring and maintain good agricultural practices."

/-- All advisory strings the composer can ever emit. -/
def allAdvisories : List String :=
  [inspectFieldAdvisory, maintainAdvisory, lowMoistureAdvisory, highMoistureAdvisory,
   droughtAdvisory, floodAdvisory, heatAdvisory, coldAdvisory, noRainAdvisory,
   heavyRainAdvisory, floweringAdvisory, fungalAdvisory, healthyDefaultAdvisory]

/-- NDVI-based rules (lines 152-162): `if health_status in ["Poor", "Critical"]`,
`elif health_status == "Excellent"`. -/
def healthRecs (health_status : String) : List String :=
  if health_status = "Poor" ∨ health_status = "Critical" then [inspectFieldAdvisory]
  else if health_status = "Excellent" then [maintainAdvisory]
  else []

/-- Water-stress rules (lines 165-173): `if ndmi < 0.2`, `elif ndmi > 0.5`. -/
def moistureRecs (ndmi : ℚ) : List String :=
  if ndmi < 0.2 then [lowMoistureAdvisory]
  else if ndmi > 0.5 then [highMoistureAdvisory]
  else []

/-- Line 176: `if weather_analysis.get('drought_risk')`. -/
def droughtRecs (w : WeatherAnalysis) : List String :=
  if flagSet w.drought_risk then [droughtAdvisory] else []

/-- Line 182: `if weather_analysis.get('flood_risk')`. -/
def floodRecs (w : WeatherAnalysis) : List String :=
  if flagSet w.flood_risk then [floodAdvisory] else []

/-- Lines 188-199: the temperature-stress sub-branch. -/
def temperatureRecs (w : WeatherAnalysis) : List String :=
  if flagSet w.temperature_stress then
    let avg_temp := w.avg_temperature.getD 25
    if avg_temp > 35 then [heatAdvisory]
    else if avg_temp < 10 then [coldAdvisory]
    else []
  else []

/-- Lines 202-210: `if forecast_rain == 0`, `elif forecast_rain > 50`. -/
def forecastRecs (w : WeatherAnalysis) : List String :=
  let forecast_rain := w.forecast_rain_7d.getD 0
  if forecast_rain = 0 then [noRainAdvisory]
  else if forecast_rain > 50 then [heavyRainAdvisory]
  else []

/-- Lines 213-217: the flowering-stage rule. -/
def floweringRecs (growth_stage health_status : String) : List String :=
  if growth_stage = "Flowering" ∧ (health_status = "Good" ∨ health_status = "Excellent") then
    [floweringAdvisory]
  else []

/-- Lines 220-226: the fungal-disease rule (`total_rain > 80 and 20 < avg_temp < 30`). -/
def fungalRecs (w : WeatherAnalysis) : List String :=
  let total_rain := w.total_rainfall_30d.getD 0
  let avg_temp := w.avg_temperature.getD 25
  if total_rain > 80 ∧ 20 < avg_temp ∧ avg_temp < 30 then [fungalAdvisory] else []

/-- The `recommendations` list built by `_generate_recommendations`, in
source order, with the default advisory appended when no rule fired
(lines 229-232).  `ndvi` and `crop_type` are accepted but never read,
exactly as in the source. -/
def generate_recommendations_list (ndvi ndmi : ℚ) (weather_analysis : WeatherAnalysis)
    (crop_type growth_stage health_status : String) : List String :=
  let recs := healthRecs health_status ++ moistureRecs ndmi
    ++ droughtRecs weather_analysis ++ floodRecs weather_analysis
    ++ temperatureRecs weather_analysis ++ forecastRecs weather_analysis
    ++ floweringRecs growth_stage health_status ++ fungalRecs weather_analysis
  if recs = [] then [healthyDefaultAdvisory] else recs

/-- The fixed separator of line 234 (`" | ".join(...)`), on which the PDF
renderer splits (`pdf_gen.py` line 305, `recommendations.split(' | ')`). -/
def recommendationSeparator : String := " | "

/-- Python's `sep.join(parts)`. -/
def joinWith (sep : String) : List String → String
  | [] => ""
  | [a] => a
  | a :: rest => a ++ sep ++ joinWith sep rest

/-- `_generate_recommendations` as the source returns it: the advisory
list joined with `" | "`. -/
def generate_recommendations (ndvi ndmi : ℚ) (weather_analysis : WeatherAnalysis)
    (crop_type growth_stage health_status : String) : String :=
  joinWith recommendationSeparator
    (generate_recommendations_list ndvi ndmi weather_analysis crop_type growth_stage health_status)

/-! ## Risk assessor (`_assess_risks`, lines 236-280) -/

/-- The `risks` dictionary. -/
structure Risks where
  drought : String
  flood : String
  disease : String
  heat_stress : String
  overall : String
deriving DecidableEq

/-- The three risk levels. -/
def riskLevels : List String := ["Low", "Medium", "High"]

/-- Drought risk (lines 248-251): note the absent-rainfall fallback is `50`
(`weather_analysis.get('total_rainfall_30d', 50)`). -/
def droughtLevel (w : WeatherAnalysis) (ndmi : ℚ) : String :=
  if flagSet w.drought_risk ∨ ndmi < 0.2 then "High"
  else if w.total_rainfall_30d.getD 50 < 30 then "Medium"
  else "Low"

/-- Flood risk (lines 254-257). -/
def floodLevel (w : WeatherAnalysis) : String :=
  if flagSet w.flood_risk then "High"
  else if w.forecast_rain_7d.getD 0 > 50 then "Medium"
  else "Low"

/-- Disease risk (lines 260-265): here the absent-rainfall fallback is `0`. -/
def diseaseLevel (w : WeatherAnalysis) : String :=
  let total_rain := w.total_rainfall_30d.getD 0
  let avg_temp := w.avg_temperature.getD 25
  if total_rain > 80 ∧ 20 < avg_temp ∧ avg_temp < 30 then "High"
  else if total_rain > 50 then "Medium"
  else "Low"

/-- Heat-stress risk (lines 268-269): no medium tier. -/
def heatStressLevel (w : WeatherAnalysis) : String :=
  if flagSet w.temperature_stress then "High" else "Low"

/-- Overall aggregation (lines 271-278).  The source counts over
`risks.values()`, which at that point still holds `'Low'` in the
`overall` slot, hence the fifth `"Low"` element. -/
def overallLevel (drought flood disease heat_stress : String) : String :=
  let values := [drought, flood, disease, heat_stress, "Low"]
  let high_risks := values.count "High"
  let medium_risks := values.count "Medium"
  if high_risks ≥ 2 then "High"
  else if high_risks ≥ 1 ∨ medium_risks ≥ 2 then "Medium"
  else "Low"

/-- `_assess_risks(weather_analysis, ndvi, ndmi)`.  The `ndvi` argument is
accepted but never read, exactly as in the source. -/
def assess_risks (weather_analysis : WeatherAnalysis) (ndvi ndmi : ℚ) : Risks :=
  let drought := droughtLevel weather_analysis ndmi
  let flood := floodLevel weather_analysis
  let disease := diseaseLevel weather_analysis
  let heat_stress := heatStressLevel weather_analysis
  { drought := drought, flood := flood, disease := disease, heat_stress := heat_stress,
    overall := overallLevel drought flood disease heat_stress }

/-- The four category levels of a risk record, in source order. -/
def fourLevels (r : Risks) : List String :=
  [r.drought, r.flood, r.disease, r.heat_stress]

/-! ## The engine (`analyze`, lines 28-90) -/

/-- The `metrics` block of the returned dictionary. -/
structure Metrics where
  ndvi : ℚ
  ndmi : ℚ
  rainfall_30d : ℚ
  forecast_rain_7d : ℚ
  avg_temperature : ℚ
deriving DecidableEq

/-- The engine's output dictionary. -/
structure Assessment where
  health_status : String
  growth_stage : String
  recommendations : String
  risks : Risks
  metrics : Metrics
deriving DecidableEq

/-- `AgronomicAnalyzer.analyze`.  `now` is the day number of
`datetime.now()`; `area` is accepted but never read, exactly as in the
source. -/
def analyze (weather_data : WeatherData) (satellite_data : SatelliteData)
    (crop_type : String) (planting_date : Option String) (area : ℚ) (now : ℤ) :
    Assessment :=
  let ndvi := satellite_data.ndvi_mean.getD 0.5
  let ndmi := satellite_data.ndmi_mean.getD 0.3
  let weather_analysis := weather_data.analysis.getD {}
  let total_rain := weather_analysis.total_rainfall_30d.getD 0
  let forecast_rain := weather_analysis.forecast_rain_7d.getD 0
  let avg_temp := weather_analysis.avg_temperature.getD 25
  let growth_stage := calculate_growth_stage planting_date now
  let health_status := assess_crop_health ndvi crop_type growth_stage
  let recommendations :=
    generate_recommendations ndvi ndmi weather_analysis crop_type growth_stage health_status
  let risks := assess_risks weather_analysis ndvi ndmi
  { health_status := health_status, growth_stage := growth_stage,
    recommendations := recommendations, risks := risks,
    metrics := { ndvi := ndvi, ndmi := ndmi, rainfall_30d := total_rain,
                 forecast_rain_7d := forecast_rain, avg_temperature := avg_temp } }

/-- `analyze` with the engine's one internal failure path (the strptime
`ValueError` inside `_calculate_growth_stage`) threaded explicitly: any
uncaught exception would surface as `Except.error`. -/
def analyzeE (weather_data : WeatherData) (satellite_data : SatelliteData)
    (crop_type : String) (planting_date : Option String) (area : ℚ) (now : ℤ) :
    Except String Assessment := do
  let ndvi := satellite_data.ndvi_mean.getD 0.5
  let ndmi := satellite_data.ndmi_mean.getD 0.3
  let weather_analysis := weather_data.analysis.getD {}
  let total_rain := weather_analysis.total_rainfall_30d.getD 0
  let forecast_rain := weather_analysis.forecast_rain_7d.getD 0
  let avg_temp := weather_analysis.avg_temperature.getD 25
  let growth_stage ← calculate_growth_stageE planting_date now
  let health_status := assess_crop_health ndvi crop_type growth_stage
  let recommendations :=
    generate_recommendations ndvi ndmi weather_analysis crop_type growth_stage health_status
  let risks := assess_risks weather_analysis ndvi ndmi
  pure { health_status := health_status, growth_stage := growth_stage,
         recommendations := recommendations, risks := risks,
         metrics := { ndvi := ndvi, ndmi := ndmi, rainfall_30d := total_rain,
                      forecast_rain_7d := forecast_rain, avg_temperature := avg_temp } }

/-! ## The renderer's split (`pdf_gen.py` line 305) and separator analysis -/

/-- Python's `s.split(sep)` for a nonempty separator, on character lists:
scan left to right and break at each leftmost occurrence of `sep`. -/
def splitOnSub (sep : List Char) : List Char → List (List Char)
  | [] => [[]]
  | a :: rest =>
    if sep <+: (a :: rest) ∧ sep ≠ [] then
      [] :: splitOnSub sep (rest.drop (sep.length - 1))
    else
      match splitOnSub sep rest with
      | [] => [[a]]
      | c :: cs => (a :: c) :: cs
termination_by l => l.length
decreasing_by
  all_goals first
    | omega
    | (simp only [List.length_drop, List.length_cons]; omega)

/-- Character-level counterpart of `joinWith`. -/
def joinChunks (sep : List Char) : List (List Char) → List Char
  | [] => []
  | [a] => a
  | a :: rest => a ++ sep ++ joinChunks sep rest

/-- No occurrence of `sep` begins strictly inside `c` when `c` is followed
directly by `sep`: the leftmost occurrence of `sep` in `c ++ sep ++ _` is
the appended one.  This is the property each advisory string must satisfy
for the renderer's split to invert the engine's join. -/
def noEarlySep (sep c : List Char) : Prop :=
  ∀ i < c.length, ¬ sep <+: (c ++ sep).drop i

instance (sep c : List Char) : Decidable (noEarlySep sep c) :=
  inferInstanceAs (Decidable (∀ i < c.length, ¬ sep <+: (c ++ sep).drop i))

/-! ## Concrete scenario inputs and default-filling (for claims C1, C2, C6) -/

/-- The wheat scenario's weather analysis: trailing rainfall 45, forecast
rain 10, mean temperature 22, no flags set. -/
def wheatWeather : WeatherAnalysis :=
  { total_rainfall_30d := some 45, forecast_rain_7d := some 10, avg_temperature := some 22,
    drought_risk := some false, flood_risk := some false, temperature_stress := some false }

/-- The wheat scenario's satellite summary: NDVI 0.72, NDMI 0.35. -/
def wheatSat : SatelliteData := { ndvi_mean := some 0.72, ndmi_mean := some 0.35 }

/-- The rice scenario's weather analysis: trailing rainfall 10, forecast
rain 0, drought flag set, everything else absent. -/
def riceWeather : WeatherAnalysis :=
  { total_rainfall_30d := some 10, forecast_rain_7d := some 0, drought_risk := some true }

/-- The rice scenario's satellite summary: NDVI 0.15, NDMI 0.1. -/
def riceSat : SatelliteData := { ndvi_mean := some 0.15, ndmi_mean := some 0.1 }

/-- Substitute the documented defaults (0.5 / 0.3) for absent satellite
fields. -/
def fillSatelliteDefaults (s : SatelliteData) : SatelliteData :=
  { ndvi_mean := some (s.ndvi_mean.getD 0.5), ndmi_mean := some (s.ndmi_mean.getD 0.3) }

/-- Substitute the documented defaults (0 / 25) for the absent
forecast-rain and mean-temperature fields of the effective weather
analysis. -/
def fillWeatherDefaults (w : WeatherData) : WeatherData :=
  let wa := w.analysis.getD {}
  ⟨some { wa with forecast_rain_7d := some (wa.forecast_rain_7d.getD 0),
                  avg_temperature := some (wa.avg_temperature.getD 25) }⟩

/-! ## Helper lemmas -/

lemma droughtLevel_mem (w : WeatherAnalysis) (m : ℚ) : droughtLevel w m ∈ riskLevels := by
  unfold droughtLevel riskLevels; split_ifs <;> simp

lemma floodLevel_mem (w : WeatherAnalysis) : floodLevel w ∈ riskLevels := by
  unfold floodLevel riskLevels; split_ifs <;> simp

lemma diseaseLevel_mem (w : WeatherAnalysis) : diseaseLevel w ∈ riskLevels := by
  unfold diseaseLevel riskLevels; dsimp only; split_ifs <;> simp

lemma heatStressLevel_mem (w : WeatherAnalysis) : heatStressLevel w ∈ riskLevels := by
  unfold heatStressLevel riskLevels; split_ifs <;> simp

lemma overallLevel_cases (d f di h : String)
    (hd : d ∈ riskLevels) (hf : f ∈ riskLevels) (hdi : di ∈ riskLevels) (hh : h ∈ riskLevels) :
    (overallLevel d f di h = "High" ↔ 2 ≤ List.count "High" [d, f, di, h]) ∧
    (overallLevel d f di h = "Medium" ↔
      ¬ 2 ≤ List.count "High" [d, f, di, h] ∧
        (List.count "High" [d, f, di, h] = 1 ∨ 2 ≤ List.count "Medium" [d, f, di, h])) ∧
    (overallLevel d f di h = "Low" ↔
      ¬ 2 ≤ List.count "High" [d, f, di, h] ∧
        ¬ (List.count "High" [d, f, di, h] = 1 ∨ 2 ≤ List.count "Medium" [d, f, di, h])) := by
  simp only [riskLevels, List.mem_cons, List.not_mem_nil, or_false] at hd hf hdi hh
  rcases hd with rfl | rfl | rfl <;> rcases hf with rfl | rfl | rfl <;>
    rcases hdi with rfl | rfl | rfl <;> rcases hh with rfl | rfl | rfl <;> decide

lemma generate_recommendations_list_ne_nil (ndvi ndmi : ℚ) (w : WeatherAnalysis)
    (crop gs hs : String) :
    generate_recommendations_list ndvi ndmi w crop gs hs ≠ [] := by
  unfold generate_recommendations_list
  dsimp only
  split
  · simp
  · next h => exact h

lemma calculate_growth_stageE_ok (pd : Option String) (now : ℤ) :
    calculate_growth_stageE pd now = Except.ok (calculate_growth_stage pd now) := by
  cases pd with
  | none => rfl
  | some s =>
    by_cases h : s.isEmpty
    · simp [calculate_growth_stageE, calculate_growth_stage, h]
    · cases hp : strptimeYMD s <;>
        simp [calculate_growth_stageE, calculate_growth_stage, growthStageAttempt, h, hp]

/-! ## Claims -/

/-- C10: the five risk levels returned by `_assess_risks` are independent of
the mean vegetation index: two calls differing only in the `ndvi` argument
return identical risk mappings. -/
theorem risks_independent_of_ndvi (w : WeatherAnalysis) (ndvi ndvi' ndmi : ℚ) :
    assess_risks w ndvi ndmi = assess_risks w ndvi' ndmi := rfl

/-- C7: for every well-typed input the composed recommendation sequence has
length at least 1 — if no rule fired, exactly the default advisory is
emitted, so the output is never empty. -/
theorem recommendations_nonempty (ndvi ndmi : ℚ) (w : WeatherAnalysis)
    (crop gs hs : String) :
    1 ≤ (generate_recommendations_list ndvi ndmi w crop gs hs).length := by
  have h := List.length_pos.mpr (generate_recommendations_list_ne_nil ndvi ndmi w crop gs hs)
  omega

/-- C5: for every input, the overall risk is `High` iff at least 2 of the
four category levels are `High`; otherwise `Medium` iff exactly 1 is `High`
or at least 2 are `Medium`; otherwise `Low`. -/
theorem overall_risk_aggregation (w : WeatherAnalysis) (ndvi ndmi : ℚ) :
    ((assess_risks w ndvi ndmi).overall = "High" ↔
      2 ≤ List.count "High" (fourLevels (assess_risks w ndvi ndmi))) ∧
    ((assess_risks w ndvi ndmi).overall = "Medium" ↔
      ¬ 2 ≤ List.count "High" (fourLevels (assess_risks w ndvi ndmi)) ∧
        (List.count "High" (fourLevels (assess_risks w ndvi ndmi)) = 1 ∨
          2 ≤ List.count "Medium" (fourLevels (assess_risks w ndvi ndmi)))) ∧
    ((assess_risks w ndvi ndmi).overall = "Low" ↔
      ¬ 2 ≤ List.count "High" (fourLevels (assess_risks w ndvi ndmi)) ∧
        ¬ (List.count "High" (fourLevels (assess_risks w ndvi ndmi)) = 1 ∨
          2 ≤ List.count "Medium" (fourLevels (assess_risks w ndvi ndmi)))) := by
  have h := overallLevel_cases (droughtLevel w ndmi) (floodLevel w) (diseaseLevel w)
    (heatStressLevel w) (droughtLevel_mem w ndmi) (floodLevel_mem w)
    (diseaseLevel_mem w) (heatStressLevel_mem w)
  simpa only [assess_risks, fourLevels] using h

/-- C4: for every crop-type string and every rational vegetation index, the
health classifier returns exactly one of the five categories, and for a
fixed crop type the classification is monotonic non-decreasing in the
index. -/
theorem health_classification_total_monotone :
    (∀ (crop growth_stage : String) (ndvi : ℚ),
        assess_crop_health ndvi crop growth_stage ∈ healthCategories) ∧
    (∀ (crop growth_stage : String) (v v' : ℚ), v ≤ v' →
        healthRank (assess_crop_health v crop growth_stage) ≤
          healthRank (assess_crop_health v' crop growth_stage)) := by
  constructor
  · intro crop g v
    unfold assess_crop_health
    dsimp only
    split_ifs <;> simp [healthCategories]
  · intro crop g v v' hvv
    unfold assess_crop_health
    dsimp only
    split_ifs <;> simp [healthRank] <;> linarith

/-- Witness for C4 at a concrete crop and pair of indices. -/
theorem health_classification_witness :
    assess_crop_health 0 "wheat" "Unknown" ∈ healthCategories ∧
    healthRank (assess_crop_health 0 "wheat" "Unknown") ≤
      healthRank (assess_crop_health 1 "wheat" "Unknown") :=
  ⟨health_classification_total_monotone.1 "wheat" "Unknown" 0,
   health_classification_total_monotone.2 "wheat" "Unknown" 0 1 (by decide)⟩

/-- C9: the engine is total — `analyze` with its one internal failure path
(the strptime `ValueError`) threaded explicitly never returns an error. -/
theorem analyze_total (wd : WeatherData) (sd : SatelliteData) (crop : String)
    (pd : Option String) (area : ℚ) (now : ℤ) :
    analyzeE wd sd crop pd area now = Except.ok (analyze wd sd crop pd area now) := by
  unfold analyzeE analyze
  rw [calculate_growth_stageE_ok]
  rfl

/-- C3: the growth-stage estimator buckets whole-day counts since planting
with half-open intervals `[0,30) ↦ Early Growth`, `[30,60) ↦ Vegetative`,
`[60,90) ↦ Flowering`, `[90,120) ↦ Fruiting/Grain Fill`,
`[120,∞) ↦ Maturity/Harvest`; every negative day count maps to
`Not Planted`; a missing or unparsable planting date maps to `Unknown`. -/
theorem growth_stage_boundaries :
    (∀ now : ℤ, calculate_growth_stage none now = "Unknown") ∧
    (∀ (s : String) (now : ℤ), strptimeYMD s = none →
        calculate_growth_stage (some s) now = "Unknown") ∧
    (∀ (s : String) (d : Date) (now : ℤ), strptimeYMD s = some d →
        (now - civilFromDate d < 0 →
          calculate_growth_stage (some s) now = "Not Planted") ∧
        (0 ≤ now - civilFromDate d → now - civilFromDate d < 30 →
          calculate_growth_stage (some s) now = "Early Growth") ∧
        (30 ≤ now - civilFromDate d → now - civilFromDate d < 60 →
          calculate_growth_stage (some s) now = "Vegetative") ∧
        (60 ≤ now - civilFromDate d → now - civilFromDate d < 90 →
          calculate_growth_stage (some s) now = "Flowering") ∧
        (90 ≤ now - civilFromDate d → now - civilFromDate d < 120 →
          calculate_growth_stage (some s) now = "Fruiting/Grain Fill") ∧
        (120 ≤ now - civilFromDate d →
          calculate_growth_stage (some s) now = "Maturity/Harvest")) := by
  refine ⟨fun now => rfl, ?_, ?_⟩
  · intro s now h
    simp [calculate_growth_stage, h]
  · intro s d now h
    have hne : s.isEmpty = false := by
      cases he : s.isEmpty
      · rfl
      · exfalso
        rw [(String.isEmpty_iff s).mp he] at h
        rw [show strptimeYMD "" = none from rfl] at h
        exact Option.noConfusion h
    have hcalc : calculate_growth_stage (some s) now = stageOfDays (now - civilFromDate d) := by
      simp [calculate_growth_stage, hne, h]
    refine ⟨fun h1 => ?_, fun h1 h2 => ?_, fun h1 h2 => ?_, fun h1 h2 => ?_,
        fun h1 h2 => ?_, fun h1 => ?_⟩ <;>
      (rw [hcalc]; unfold stageOfDays; split_ifs <;> first | rfl | (exfalso; omega))

/-- Witness for C3 at the planting date `"2020-01-01"`, the nine sample day
counts, a negative day count, a missing date and an unparsable date. -/
theorem growth_stage_boundaries_witness :
    calculate_growth_stage (some "2020-01-01") (civilFromDate ⟨2020, 1, 1⟩ + 0) = "Early Growth" ∧
    calculate_growth_stage (some "2020-01-01") (civilFromDate ⟨2020, 1, 1⟩ + 29) = "Early Growth" ∧
    calculate_growth_stage (some "2020-01-01") (civilFromDate ⟨2020, 1, 1⟩ + 30) = "Vegetative" ∧
    calculate_growth_stage (some "2020-01-01") (civilFromDate ⟨2020, 1, 1⟩ + 59) = "Vegetative" ∧
    calculate_growth_stage (some "2020-01-01") (civilFromDate ⟨2020, 1, 1⟩ + 60) = "Flowering" ∧
    calculate_growth_stage (some "2020-01-01") (civilFromDate ⟨2020, 1, 1⟩ + 89) = "Flowering" ∧
    calculate_growth_stage (some "2020-01-01") (civilFromDate ⟨2020, 1, 1⟩ + 90)
      = "Fruiting/Grain Fill" ∧
    calculate_growth_stage (some "2020-01-01") (civilFromDate ⟨2020, 1, 1⟩ + 119)
      = "Fruiting/Grain Fill" ∧
    calculate_growth_stage (some "2020-01-01") (civilFromDate ⟨2020, 1, 1⟩ + 120)
      = "Maturity/Harvest" ∧
    calculate_growth_stage (some "2020-01-01") (civilFromDate ⟨2020, 1, 1⟩ - 1) = "Not Planted" ∧
    calculate_growth_stage none 0 = "Unknown" ∧
    calculate_growth_stage (some "not-a-date") 0 = "Unknown" := by
  have h := growth_stage_boundaries
  have hp : strptimeYMD "2020-01-01" = some ⟨2020, 1, 1⟩ := by decide
  exact ⟨(h.2.2 _ _ _ hp).2.1 (by decide) (by decide),
    (h.2.2 _ _ _ hp).2.1 (by decide) (by decide),
    (h.2.2 _ _ _ hp).2.2.1 (by decide) (by decide),
    (h.2.2 _ _ _ hp).2.2.1 (by decide) (by decide),
    (h.2.2 _ _ _ hp).2.2.2.1 (by decide) (by decide),
    (h.2.2 _ _ _ hp).2.2.2.1 (by decide) (by decide),
    (h.2.2 _ _ _ hp).2.2.2.2.1 (by decide) (by decide),
    (h.2.2 _ _ _ hp).2.2.2.2.1 (by decide) (by decide),
    (h.2.2 _ _ _ hp).2.2.2.2.2 (by decide),
    (h.2.2 _ _ _ hp).1 (by decide),
    h.1 0,
    h.2.1 "not-a-date" 0 (by decide)⟩

/-- C6: for the rice scenario (NDVI 0.15, NDMI 0.1, trailing rainfall 10,
drought flag set, forecast rain 0) the health is `Critical`, the drought
risk is `High`, and the recommendation list contains the inspect-field,
low-moisture, drought-conservation and no-rain advisories in that relative
order. -/
theorem rice_scenario (now : ℤ) :
    (analyze ⟨some riceWeather⟩ riceSat "rice" none 0 now).health_status = "Critical" ∧
    (analyze ⟨some riceWeather⟩ riceSat "rice" none 0 now).risks.drought = "High" ∧
    (analyze ⟨some riceWeather⟩ riceSat "rice" none 0 now).recommendations
      = joinWith recommendationSeparator
          (generate_recommendations_list 0.15 0.1 riceWeather "rice" "Unknown" "Critical") ∧
    List.Sublist
      [inspectFieldAdvisory, lowMoistureAdvisory, droughtAdvisory, noRainAdvisory]
      (generate_recommendations_list 0.15 0.1 riceWeather "rice" "Unknown" "Critical") := by
  have hl : CROP_NDVI_THRESHOLDS.lookup (lowerString "rice") = some ⟨0.8, 0.6, 0.4, 0.3⟩ := rfl
  have hhealth : assess_crop_health 0.15 "rice" "Unknown" = "Critical" := by
    simp only [assess_crop_health, hl, Option.getD_some]
    norm_num
  have hrec : generate_recommendations_list 0.15 0.1 riceWeather "rice" "Unknown" "Critical"
      = [inspectFieldAdvisory, lowMoistureAdvisory, droughtAdvisory, noRainAdvisory] := by
    norm_num [generate_recommendations_list, healthRecs, moistureRecs, droughtRecs, floodRecs,
      temperatureRecs, forecastRecs, floweringRecs, fungalRecs, riceWeather, flagSet]
    decide
  refine ⟨hhealth, ?_, ?_, ?_⟩
  · show (assess_risks riceWeather 0.15 0.1).drought = "High"
    norm_num [assess_risks, droughtLevel, riceWeather, flagSet]
  · show joinWith recommendationSeparator
        (generate_recommendations_list 0.15 0.1 riceWeather "rice" "Unknown"
          (assess_crop_health 0.15 "rice" "Unknown")) = _
    rw [hhealth]
  · rw [hrec]

/-- C2 counterexample: for the wheat scenario with the planting date exactly
60 days before the current date, the engine returns growth stage
`Flowering`, not `Vegetative`, and the flowering-stage advisory fires in
addition to the maintain-practices advisory (day count 60 falls in the
`[60,90)` bucket, and rule 10 then fires because health is `Excellent`). -/
theorem wheat_scenario_counterexample :
    (analyze ⟨some wheatWeather⟩ wheatSat "wheat" (some "2024-01-01") 0
        (civilFromDate ⟨2024, 3, 1⟩)).growth_stage = "Flowering" ∧
    (analyze ⟨some wheatWeather⟩ wheatSat "wheat" (some "2024-01-01") 0
        (civilFromDate ⟨2024, 3, 1⟩)).growth_stage ≠ "Vegetative" ∧
    generate_recommendations_list 0.72 0.35 wheatWeather "wheat" "Flowering" "Excellent"
      = [maintainAdvisory, floweringAdvisory] ∧
    (analyze ⟨some wheatWeather⟩ wheatSat "wheat" (some "2024-01-01") 0
        (civilFromDate ⟨2024, 3, 1⟩)).recommendations
      = joinWith recommendationSeparator [maintainAdvisory, floweringAdvisory] ∧
    [maintainAdvisory, floweringAdvisory] ≠ [maintainAdvisory] := by
  have hstage : calculate_growth_stage (some "2024-01-01") (civilFromDate ⟨2024, 3, 1⟩)
      = "Flowering" := by decide
  have hl : CROP_NDVI_THRESHOLDS.lookup (lowerString "wheat") = some ⟨0.7, 0.5, 0.3, 0.2⟩ := rfl
  have hhealth : assess_crop_health 0.72 "wheat" "Flowering" = "Excellent" := by
    simp only [assess_crop_health, hl, Option.getD_some]
    norm_num
  have hrec : generate_recommendations_list 0.72 0.35 wheatWeather "wheat" "Flowering" "Excellent"
      = [maintainAdvisory, floweringAdvisory] := by
    norm_num [generate_recommendations_list, healthRecs, moistureRecs, droughtRecs, floodRecs,
      temperatureRecs, forecastRecs, floweringRecs, fungalRecs, wheatWeather, flagSet]
    decide
  refine ⟨hstage, ?_, hrec, ?_, ?_⟩
  · show calculate_growth_stage (some "2024-01-01") (civilFromDate ⟨2024, 3, 1⟩) ≠ "Vegetative"
    rw [hstage]; decide
  · show joinWith recommendationSeparator
        (generate_recommendations_list 0.72 0.35 wheatWeather "wheat"
          (calculate_growth_stage (some "2024-01-01") (civilFromDate ⟨2024, 3, 1⟩))
          (assess_crop_health 0.72 "wheat"
            (calculate_growth_stage (some "2024-01-01") (civilFromDate ⟨2024, 3, 1⟩)))) = _
    rw [hstage, hhealth, hrec]
  · intro h
    have := congrArg List.length h
    simp at this

/-- C2 amended: for the wheat scenario with the planting date exactly 60
days before the current date, the engine returns health `Excellent`, growth
stage `Flowering` (day 60 falls in the `[60,90)` bucket), all risks `Low`,
and exactly the maintain-practices advisory followed by the
critical-flowering-stage advisory. -/
theorem wheat_scenario_amended (now : ℤ) (pd : String) (d : Date)
    (hparse : strptimeYMD pd = some d) (h60 : now - civilFromDate d = 60) :
    (analyze ⟨some wheatWeather⟩ wheatSat "wheat" (some pd) 0 now).health_status
      = "Excellent" ∧
    (analyze ⟨some wheatWeather⟩ wheatSat "wheat" (some pd) 0 now).growth_stage
      = "Flowering" ∧
    (analyze ⟨some wheatWeather⟩ wheatSat "wheat" (some pd) 0 now).risks
      = ⟨"Low", "Low", "Low", "Low", "Low"⟩ ∧
    generate_recommendations_list 0.72 0.35 wheatWeather "wheat" "Flowering" "Excellent"
      = [maintainAdvisory, floweringAdvisory] ∧
    (analyze ⟨some wheatWeather⟩ wheatSat "wheat" (some pd) 0 now).recommendations
      = joinWith recommendationSeparator [maintainAdvisory, floweringAdvisory] := by
  have hne : pd.isEmpty = false := by
    cases he : pd.isEmpty
    · rfl
    · exfalso
      rw [(String.isEmpty_iff pd).mp he] at hparse
      rw [show strptimeYMD "" = none from rfl] at hparse
      exact Option.noConfusion hparse
  have hstage : calculate_growth_stage (some pd) now = "Flowering" := by
    simp only [calculate_growth_stage, hne, Bool.false_eq_true, if_false, hparse]
    rw [h60]
    decide
  have hl : CROP_NDVI_THRESHOLDS.lookup (lowerString "wheat") = some ⟨0.7, 0.5, 0.3, 0.2⟩ := rfl
  have hhealth : assess_crop_health 0.72 "wheat" "Flowering" = "Excellent" := by
    simp only [assess_crop_health, hl, Option.getD_some]
    norm_num
  have hrec : generate_recommendations_list 0.72 0.35 wheatWeather "wheat" "Flowering" "Excellent"
      = [maintainAdvisory, floweringAdvisory] := by
    norm_num [generate_recommendations_list, healthRecs, moistureRecs, droughtRecs, floodRecs,
      temperatureRecs, forecastRecs, floweringRecs, fungalRecs, wheatWeather, flagSet]
    decide
  refine ⟨?_, hstage, ?_, hrec, ?_⟩
  · show assess_crop_health 0.72 "wheat" (calculate_growth_stage (some pd) now) = "Excellent"
    rw [hstage]; exact hhealth
  · show assess_risks wheatWeather 0.72 0.35 = _
    norm_num [assess_risks, droughtLevel, floodLevel, diseaseLevel, heatStressLevel,
      overallLevel, wheatWeather, flagSet]
    decide
  · show joinWith recommendationSeparator
        (generate_recommendations_list 0.72 0.35 wheatWeather "wheat"
          (calculate_growth_stage (some pd) now)
          (assess_crop_health 0.72 "wheat" (calculate_growth_stage (some pd) now))) = _
    rw [hstage, hhealth, hrec]

/-- Witness for C2 (amended) at the concrete planting date `"2024-01-01"`
and current day `2024-03-01`, exactly 60 days later. -/
theorem wheat_scenario_amended_witness :
    (analyze ⟨some wheatWeather⟩ wheatSat "wheat" (some "2024-01-01") 0
        (civilFromDate ⟨2024, 3, 1⟩)).health_status = "Excellent" ∧
    (analyze ⟨some wheatWeather⟩ wheatSat "wheat" (some "2024-01-01") 0
        (civilFromDate ⟨2024, 3, 1⟩)).growth_stage = "Flowering" ∧
    (analyze ⟨some wheatWeather⟩ wheatSat "wheat" (some "2024-01-01") 0
        (civilFromDate ⟨2024, 3, 1⟩)).risks = ⟨"Low", "Low", "Low", "Low", "Low"⟩ ∧
    generate_recommendations_list 0.72 0.35 wheatWeather "wheat" "Flowering" "Excellent"
      = [maintainAdvisory, floweringAdvisory] ∧
    (analyze ⟨some wheatWeather⟩ wheatSat "wheat" (some "2024-01-01") 0
        (civilFromDate ⟨2024, 3, 1⟩)).recommendations
      = joinWith recommendationSeparator [maintainAdvisory, floweringAdvisory] :=
  wheat_scenario_amended (civilFromDate ⟨2024, 3, 1⟩) "2024-01-01" ⟨2024, 1, 1⟩
    (by decide) (by decide)

/-- C1 counterexample: an absent trailing-rainfall field does not behave as
0 in the drought-risk Medium test — the source reads it there with fallback
50 (`weather_analysis.get('total_rainfall_30d', 50)`), so with rainfall
absent the drought risk is `Low` while with rainfall 0 substituted it is
`Medium`, and the two Assessments differ. -/
theorem absent_rainfall_counterexample :
    (analyze ⟨some {}⟩ {} "wheat" none 0 0).risks.drought = "Low" ∧
    (analyze ⟨some { total_rainfall_30d := some 0 }⟩ {} "wheat" none 0 0).risks.drought
      = "Medium" ∧
    analyze ⟨some {}⟩ {} "wheat" none 0 0
      ≠ analyze ⟨some { total_rainfall_30d := some 0 }⟩ {} "wheat" none 0 0 := by
  have h1 : (analyze ⟨some {}⟩ {} "wheat" none 0 0).risks.drought = "Low" := by
    show (assess_risks {} 0.5 0.3).drought = "Low"
    norm_num [assess_risks, droughtLevel, flagSet]
  have h2 : (analyze ⟨some { total_rainfall_30d := some 0 }⟩ {} "wheat" none 0 0).risks.drought
      = "Medium" := by
    show (assess_risks { total_rainfall_30d := some 0 } 0.5 0.3).drought = "Medium"
    norm_num [assess_risks, droughtLevel, flagSet]
  refine ⟨h1, h2, fun h => ?_⟩
  have h3 := congrArg (fun a => a.risks.drought) h
  simp only at h3
  rw [h1, h2] at h3
  exact absurd h3 (by decide)

/-- C1 amended: absent vegetation index, moisture index, forecast rainfall
and mean temperature behave exactly as their documented defaults (0.5, 0.3,
0, 25); an absent trailing-rainfall field behaves as 0 everywhere except in
the risk assessor, where it behaves as 50 — in particular it never triggers
the drought-risk Medium test. -/
theorem absent_field_defaults_amended :
    (∀ (wd : WeatherData) (sd : SatelliteData) (crop : String) (pd : Option String)
        (area : ℚ) (now : ℤ),
        analyze (fillWeatherDefaults wd) (fillSatelliteDefaults sd) crop pd area now
          = analyze wd sd crop pd area now) ∧
    (∀ (w : WeatherAnalysis) (ndvi ndmi : ℚ), w.total_rainfall_30d = none →
        assess_risks w ndvi ndmi
          = assess_risks { w with total_rainfall_30d := some 50 } ndvi ndmi) ∧
    (∀ (w : WeatherAnalysis) (sd : SatelliteData) (crop : String) (pd : Option String)
        (area : ℚ) (now : ℤ), w.total_rainfall_30d = none →
        (analyze ⟨some w⟩ sd crop pd area now).health_status
            = (analyze ⟨some { w with total_rainfall_30d := some 0 }⟩ sd crop pd area
                now).health_status ∧
        (analyze ⟨some w⟩ sd crop pd area now).growth_stage
            = (analyze ⟨some { w with total_rainfall_30d := some 0 }⟩ sd crop pd area
                now).growth_stage ∧
        (analyze ⟨some w⟩ sd crop pd area now).recommendations
            = (analyze ⟨some { w with total_rainfall_30d := some 0 }⟩ sd crop pd area
                now).recommendations ∧
        (analyze ⟨some w⟩ sd crop pd area now).metrics
            = (analyze ⟨some { w with total_rainfall_30d := some 0 }⟩ sd crop pd area
                now).metrics) := by
  refine ⟨?_, ?_, ?_⟩
  · intro wd sd crop pd area now
    simp only [analyze, fillWeatherDefaults, fillSatelliteDefaults, generate_recommendations,
      generate_recommendations_list, healthRecs, moistureRecs, droughtRecs, floodRecs,
      temperatureRecs, forecastRecs, floweringRecs, fungalRecs, assess_risks, droughtLevel,
      floodLevel, diseaseLevel, heatStressLevel, overallLevel, flagSet, Option.getD_some]
  · intro w ndvi ndmi hw
    simp only [assess_risks, droughtLevel, floodLevel, diseaseLevel, heatStressLevel,
      overallLevel, flagSet, hw, Option.getD_some, Option.getD_none]
    norm_num
  · intro w sd crop pd area now hw
    refine ⟨rfl, rfl, ?_, ?_⟩
    · simp only [analyze, generate_recommendations, generate_recommendations_list, healthRecs,
        moistureRecs, droughtRecs, floodRecs, temperatureRecs, forecastRecs, floweringRecs,
        fungalRecs, flagSet, hw, Option.getD_some, Option.getD_none]
    · simp only [analyze, hw, Option.getD_some, Option.getD_none]

/-- Witness for C1 (amended) at concrete inputs with every optional field
absent. -/
theorem absent_field_defaults_witness :
    analyze (fillWeatherDefaults ⟨some {}⟩) (fillSatelliteDefaults {}) "corn" none 1 5
      = analyze ⟨some {}⟩ {} "corn" none 1 5 ∧
    assess_risks {} 0.5 0.3 = assess_risks { total_rainfall_30d := some 50 } 0.5 0.3 ∧
    (analyze ⟨some {}⟩ {} "corn" none 1 5).recommendations
      = (analyze ⟨some { total_rainfall_30d := some 0 }⟩ {} "corn" none 1 5).recommendations :=
  ⟨absent_field_defaults_amended.1 ⟨some {}⟩ {} "corn" none 1 5,
   absent_field_defaults_amended.2.1 {} 0.5 0.3 rfl,
   (absent_field_defaults_amended.2.2 {} {} "corn" none 1 5 rfl).2.2.1⟩

/-! ## Separator round-trip machinery (claim C8) -/

lemma isPrefix_of_append_left {α : Type} :
    ∀ (sep L r : List α), sep <+: L ++ r → sep.length ≤ L.length → sep <+: L
  | [], L, _, _, _ => ⟨L, by simp⟩
  | a :: s, [], _, _, hl => by simp at hl
  | a :: s, b :: L, r, h, hl => by
    obtain ⟨t, ht⟩ := h
    simp only [List.cons_append, List.cons.injEq] at ht
    obtain ⟨rfl, h2⟩ := ht
    obtain ⟨u, hu⟩ := isPrefix_of_append_left s L r ⟨t, h2⟩ (by simpa using hl)
    exact ⟨u, by simp [hu]⟩

lemma isPrefix_append_right {α : Type} {sep X : List α} (Y : List α) (h : sep <+: X) :
    sep <+: X ++ Y := by
  obtain ⟨t, rfl⟩ := h
  exact ⟨t ++ Y, by simp⟩

lemma noEarlySep_shift {sep : List Char} {a : Char} {c : List Char}
    (h : noEarlySep sep (a :: c)) : noEarlySep sep c := by
  intro i hi
  have h2 := h (i + 1) (by simp; omega)
  simpa using h2

lemma splitOnSub_cons_pos (sep : List Char) (a : Char) (rest : List Char)
    (h : sep <+: (a :: rest) ∧ sep ≠ []) :
    splitOnSub sep (a :: rest) = [] :: splitOnSub sep (rest.drop (sep.length - 1)) := by
  rw [splitOnSub, if_pos h]

lemma splitOnSub_cons_neg (sep : List Char) (a : Char) (rest : List Char)
    (h : ¬ (sep <+: (a :: rest) ∧ sep ≠ [])) :
    splitOnSub sep (a :: rest)
      = match splitOnSub sep rest with
        | [] => [[a]]
        | c :: cs => (a :: c) :: cs := by
  rw [splitOnSub, if_neg h]

lemma splitOnSub_of_noEarly (sep : List Char) (hsep : sep ≠ []) :
    ∀ c : List Char, noEarlySep sep c → splitOnSub sep c = [c] := by
  intro c
  induction c with
  | nil => intro _; rw [splitOnSub]
  | cons a c ih =>
    intro hne
    have hnp : ¬ sep <+: (a :: c) := fun hp =>
      hne 0 (by simp) (by simpa using isPrefix_append_right sep hp)
    rw [splitOnSub_cons_neg sep a c (fun hc => hnp hc.1), ih (noEarlySep_shift hne)]

lemma splitOnSub_chunk (sep : List Char) (hsep : sep ≠ []) :
    ∀ c r : List Char, noEarlySep sep c →
      splitOnSub sep (c ++ (sep ++ r)) = c :: splitOnSub sep r := by
  intro c
  induction c with
  | nil =>
    intro r _
    match sep, hsep with
    | a :: s, _ =>
      show splitOnSub (a :: s) (a :: (s ++ r)) = [] :: splitOnSub (a :: s) r
      rw [splitOnSub_cons_pos (a :: s) a (s ++ r) ⟨⟨r, by simp⟩, by simp⟩]
      congr 1
      rw [show (a :: s : List Char).length - 1 = s.length from by simp]
      rw [List.drop_left]
  | cons a c ih =>
    intro r hne
    have h0 : ¬ sep <+: ((a :: c) ++ sep) := by simpa using hne 0 (by simp)
    have hnp : ¬ sep <+: (a :: (c ++ (sep ++ r))) := by
      intro hp
      exact h0 (isPrefix_of_append_left sep ((a :: c) ++ sep) r
        (by simpa [List.append_assoc] using hp)
        (by simp only [List.length_append, List.length_cons]; omega))
    rw [show (a :: c) ++ (sep ++ r) = a :: (c ++ (sep ++ r)) from rfl]
    rw [splitOnSub_cons_neg sep a _ (fun hc => hnp hc.1)]
    rw [ih r (noEarlySep_shift hne)]

lemma splitOnSub_joinChunks (sep : List Char) (hsep : sep ≠ []) :
    ∀ l : List (List Char), l ≠ [] → (∀ c ∈ l, noEarlySep sep c) →
      splitOnSub sep (joinChunks sep l) = l := by
  intro l
  induction l with
  | nil => intro h _; exact absurd rfl h
  | cons c rest ih =>
    intro _ hall
    cases rest with
    | nil => exact splitOnSub_of_noEarly sep hsep c (hall c (by simp))
    | cons c2 t =>
      rw [show joinChunks sep (c :: c2 :: t) = c ++ (sep ++ joinChunks sep (c2 :: t)) from by
        simp [joinChunks, List.append_assoc]]
      rw [splitOnSub_chunk sep hsep c _ (hall c (by simp))]
      rw [ih (by simp) fun x hx => hall x (by simp [hx])]

lemma joinWith_data (sep : String) :
    ∀ l : List String, (joinWith sep l).data = joinChunks sep.data (l.map String.data)
  | [] => rfl
  | [a] => rfl
  | a :: b :: t => by
    show (a ++ sep ++ joinWith sep (b :: t)).data = _
    rw [String.data_append, String.data_append, joinWith_data sep (b :: t)]
    simp [joinChunks]

lemma noEarlySep_not_infix {sep c : List Char} (hsep : sep ≠ []) (h : noEarlySep sep c) :
    ¬ sep <:+: c := by
  rintro ⟨s, t, rfl⟩
  have hpos : 0 < sep.length := List.length_pos.mpr hsep
  have hlen : s.length < (s ++ sep ++ t).length := by
    simp [List.length_append]
    omega
  refine h s.length hlen ?_
  rw [show (s ++ sep ++ t) ++ sep = s ++ (sep ++ (t ++ sep)) from by simp [List.append_assoc]]
  rw [List.drop_left]
  exact ⟨t ++ sep, rfl⟩

lemma healthRecs_subset (hs : String) : ∀ a ∈ healthRecs hs, a ∈ allAdvisories := by
  intro a ha
  unfold healthRecs at ha
  split_ifs at ha <;> simp_all [allAdvisories]

lemma moistureRecs_subset (m : ℚ) : ∀ a ∈ moistureRecs m, a ∈ allAdvisories := by
  intro a ha
  unfold moistureRecs at ha
  split_ifs at ha <;> simp_all [allAdvisories]

lemma droughtRecs_subset (w : WeatherAnalysis) : ∀ a ∈ droughtRecs w, a ∈ allAdvisories := by
  intro a ha
  unfold droughtRecs at ha
  split_ifs at ha <;> simp_all [allAdvisories]

lemma floodRecs_subset (w : WeatherAnalysis) : ∀ a ∈ floodRecs w, a ∈ allAdvisories := by
  intro a ha
  unfold floodRecs at ha
  split_ifs at ha <;> simp_all [allAdvisories]

lemma temperatureRecs_subset (w : WeatherAnalysis) :
    ∀ a ∈ temperatureRecs w, a ∈ allAdvisories := by
  intro a ha
  unfold temperatureRecs at ha
  dsimp only at ha
  split_ifs at ha <;> simp_all [allAdvisories]

lemma forecastRecs_subset (w : WeatherAnalysis) : ∀ a ∈ forecastRecs w, a ∈ allAdvisories := by
  intro a ha
  unfold forecastRecs at ha
  dsimp only at ha
  split_ifs at ha <;> simp_all [allAdvisories]

lemma floweringRecs_subset (gs hs : String) :
    ∀ a ∈ floweringRecs gs hs, a ∈ allAdvisories := by
  intro a ha
  unfold floweringRecs at ha
  split_ifs at ha <;> simp_all [allAdvisories]

lemma fungalRecs_subset (w : WeatherAnalysis) : ∀ a ∈ fungalRecs w, a ∈ allAdvisories := by
  intro a ha
  unfold fungalRecs at ha
  dsimp only at ha
  split_ifs at ha <;> simp_all [allAdvisories]

lemma generate_recommendations_list_subset (ndvi ndmi : ℚ) (w : WeatherAnalysis)
    (crop gs hs : String) :
    ∀ a ∈ generate_recommendations_list ndvi ndmi w crop gs hs, a ∈ allAdvisories := by
  intro a ha
  unfold generate_recommendations_list at ha
  dsimp only at ha
  split at ha
  · simp_all [allAdvisories]
  · simp only [List.mem_append] at ha
    rcases ha with (((((((ha | ha) | ha) | ha) | ha) | ha) | ha) | ha)
    · exact healthRecs_subset hs a ha
    · exact moistureRecs_subset ndmi a ha
    · exact droughtRecs_subset w a ha
    · exact floodRecs_subset w a ha
    · exact temperatureRecs_subset w a ha
    · exact forecastRecs_subset w a ha
    · exact floweringRecs_subset gs hs a ha
    · exact fungalRecs_subset w a ha

set_option maxRecDepth 400000 in
lemma allAdvisories_noEarlySep :
    ∀ a ∈ allAdvisories, noEarlySep recommendationSeparator.data a.data := by decide

/-- C8: no advisory string produced by the recommendation composer contains
the fixed join separator `" | "` in its own text, and splitting the joined
recommendation string on that separator recovers exactly the ordered
sequence of triggered advisories. -/
theorem recommendations_separator_roundtrip (ndvi ndmi : ℚ) (w : WeatherAnalysis)
    (crop gs hs : String) :
    (∀ a ∈ generate_recommendations_list ndvi ndmi w crop gs hs,
        ¬ recommendationSeparator.data <:+: a.data) ∧
    splitOnSub recommendationSeparator.data
        (generate_recommendations ndvi ndmi w crop gs hs).data
      = (generate_recommendations_list ndvi ndmi w crop gs hs).map String.data := by
  have hsep : recommendationSeparator.data ≠ [] := by decide
  have hall : ∀ a ∈ generate_recommendations_list ndvi ndmi w crop gs hs,
      noEarlySep recommendationSeparator.data a.data := fun a ha =>
    allAdvisories_noEarlySep a (generate_recommendations_list_subset ndvi ndmi w crop gs hs a ha)
  refine ⟨fun a ha => noEarlySep_not_infix hsep (hall a ha), ?_⟩
  show splitOnSub recommendationSeparator.data
      (joinWith recommendationSeparator
        (generate_recommendations_list ndvi ndmi w crop gs hs)).data = _
  rw [joinWith_data]
  refine splitOnSub_joinChunks _ hsep _ ?_ ?_
  · simp only [ne_eq, List.map_eq_nil_iff]
    exact generate_recommendations_list_ne_nil ndvi ndmi w crop gs hs
  · intro x hx
    obtain ⟨a, ha, rfl⟩ := List.mem_map.mp hx
    exact hall a ha

/-- Witness for C8 at a concrete input whose recommendation list is exactly
the default advisory. -/
theorem recommendations_separator_roundtrip_witness :
    (¬ recommendationSeparator.data <:+: healthyDefaultAdvisory.data) ∧
    splitOnSub recommendationSeparator.data
        (generate_recommendations 0.5 0.3 { forecast_rain_7d := some 5 } "wheat" "Unknown"
          "Moderate").data
      = (generate_recommendations_list 0.5 0.3 { forecast_rain_7d := some 5 } "wheat" "Unknown"
          "Moderate").map String.data := by
  have h := recommendations_separator_roundtrip 0.5 0.3 { forecast_rain_7d := some 5 } "wheat"
    "Unknown" "Moderate"
  have hlist : generate_recommendations_list 0.5 0.3 { forecast_rain_7d := some 5 } "wheat"
      "Unknown" "Moderate" = [healthyDefaultAdvisory] := by
    norm_num [generate_recommendations_list, healthRecs, moistureRecs, droughtRecs, floodRecs,
      temperatureRecs, forecastRecs, floweringRecs, fungalRecs, flagSet]
    decide
  have hmem : healthyDefaultAdvisory ∈ generate_recommendations_list 0.5 0.3
      { forecast_rain_7d := some 5 } "wheat" "Unknown" "Moderate" := by
    rw [hlist]; simp
  exact ⟨h.1 healthyDefaultAdvisory hmem, h.2⟩

end FarmMonitor
